import Mathlib

/-!
Verification of the session-orchestration layer of a multi-worker WhatsApp
gateway.  The definitions below are shallow embeddings of the repository
JavaScript source: the master/worker cluster router (`getWorkerIndexForSession`,
`forwardToWorker`, the IPC correlation table), the per-session connection
state machine (`connection.update` handler), the worker action dispatcher
(`startWhatsAppSession`), the QR-expiry logic, the debounced credential
persistence (`saveAuth`) and its write-retry chain, and the startup
auto-restore partitioning.
-/

namespace WhatsAppGateway

/-! ## MD5, as used by `crypto.createHash("md5")` in `getWorkerIndexForSession`.

Bytes are `Nat`s below 256; 32-bit machine words are `Nat`s reduced modulo
`2 ^ 32` explicitly. -/

def U32MOD : Nat := 4294967296

def u32 (n : Nat) : Nat := n % U32MOD

def rotl32 (x s : Nat) : Nat := u32 ((x <<< s) ||| (x >>> (32 - s)))

/-- The 64 round constants `K[i] = floor(2^32 * abs(sin(i+1)))` of MD5. -/
def md5K : List Nat :=
  [0xd76aa478, 0xe8c7b756, 0x242070db, 0xc1bdceee,
   0xf57c0faf, 0x4787c62a, 0xa8304613, 0xfd469501,
   0x698098d8, 0x8b44f7af, 0xffff5bb1, 0x895cd7be,
   0x6b901122, 0xfd987193, 0xa679438e, 0x49b40821,
   0xf61e2562, 0xc040b340, 0x265e5a51, 0xe9b6c7aa,
   0xd62f105d, 0x02441453, 0xd8a1e681, 0xe7d3fbc8,
   0x21e1cde6, 0xc33707d6, 0xf4d50d87, 0x455a14ed,
   0xa9e3e905, 0xfcefa3f8, 0x676f02d9, 0x8d2a4c8a,
   0xfffa3942, 0x8771f681, 0x6d9d6122, 0xfde5380c,
   0xa4beea44, 0x4bdecfa9, 0xf6bb4b60, 0xbebfbc70,
   0x289b7ec6, 0xeaa127fa, 0xd4ef3085, 0x04881d05,
   0xd9d4d039, 0xe6db99e5, 0x1fa27cf8, 0xc4ac5665,
   0xf4292244, 0x432aff97, 0xab9423a7, 0xfc93a039,
   0x655b59c3, 0x8f0ccc92, 0xffeff47d, 0x85845dd1,
   0x6fa87e4f, 0xfe2ce6e0, 0xa3014314, 0x4e0811a1,
   0xf7537e82, 0xbd3af235, 0x2ad7d2bb, 0xeb86d391]

/-- The per-round left-rotation amounts of MD5. -/
def md5S : List Nat :=
  [7, 12, 17, 22, 7, 12, 17, 22, 7, 12, 17, 22, 7, 12, 17, 22,
   5, 9, 14, 20, 5, 9, 14, 20, 5, 9, 14, 20, 5, 9, 14, 20,
   4, 11, 16, 23, 4, 11, 16, 23, 4, 11, 16, 23, 4, 11, 16, 23,
   6, 10, 15, 21, 6, 10, 15, 21, 6, 10, 15, 21, 6, 10, 15, 21]

/-- The round mixing function of MD5 (F, G, H, I depending on the round). -/
def md5F (i b c d : Nat) : Nat :=
  if i < 16 then (b &&& c) ||| ((b ^^^ 0xffffffff) &&& d)
  else if i < 32 then (d &&& b) ||| ((d ^^^ 0xffffffff) &&& c)
  else if i < 48 then b ^^^ c ^^^ d
  else c ^^^ (b ||| (d ^^^ 0xffffffff))

/-- The message-word schedule of MD5. -/
def md5G (i : Nat) : Nat :=
  if i < 16 then i
  else if i < 32 then (5 * i + 1) % 16
  else if i < 48 then (3 * i + 5) % 16
  else (7 * i) % 16

/-- Little-endian byte decomposition of a `Nat` into `n` bytes. -/
def leBytes : Nat → Nat → List Nat
  | 0, _ => []
  | n + 1, v => (v % 256) :: leBytes n (v / 256)

/-- The `g`-th little-endian 32-bit word of a 64-byte block. -/
def wordAt (block : List Nat) (g : Nat) : Nat :=
  block.getD (4 * g) 0 + block.getD (4 * g + 1) 0 * 256 +
    block.getD (4 * g + 2) 0 * 65536 + block.getD (4 * g + 3) 0 * 16777216

/-- One MD5 round on the running state `(a, b, c, d)`. -/
def md5Step (block : List Nat) (st : Nat × Nat × Nat × Nat) (i : Nat) :
    Nat × Nat × Nat × Nat :=
  let a := st.1
  let b := st.2.1
  let c := st.2.2.1
  let d := st.2.2.2
  let f := u32 (md5F i b c d + a + md5K.getD i 0 + wordAt block (md5G i))
  (d, u32 (b + rotl32 f (md5S.getD i 0)), b, c)

/-- Process one 64-byte block: 64 rounds, then add into the chaining state. -/
def md5Block (st : Nat × Nat × Nat × Nat) (block : List Nat) :
    Nat × Nat × Nat × Nat :=
  let r := (List.range 64).foldl (md5Step block) st
  (u32 (st.1 + r.1), u32 (st.2.1 + r.2.1),
   u32 (st.2.2.1 + r.2.2.1), u32 (st.2.2.2 + r.2.2.2))

/-- MD5 padding: append `0x80`, zero bytes to 56 mod 64, and the 64-bit
little-endian bit length. -/
def md5Pad (msg : List Nat) : List Nat :=
  let z := (64 - (msg.length + 9) % 64) % 64
  msg ++ 128 :: List.replicate z 0 ++ leBytes 8 (msg.length * 8)

/-- Split a byte list into 64-byte chunks (fuel-indexed structural recursion;
the fuel `l.length` always suffices since every step consumes 64 bytes). -/
def chunks64Aux : Nat → List Nat → List (List Nat)
  | 0, _ => []
  | _ + 1, [] => []
  | fuel + 1, l => l.take 64 :: chunks64Aux fuel (l.drop 64)

def chunks64 (l : List Nat) : List (List Nat) :=
  chunks64Aux l.length l

def md5Init : Nat × Nat × Nat × Nat :=
  (0x67452301, 0xefcdab89, 0x98badcfe, 0x10325476)

/-- The 16-byte MD5 digest of a byte list. -/
def md5Digest (msg : List Nat) : List Nat :=
  let st := (chunks64 (md5Pad msg)).foldl md5Block md5Init
  leBytes 4 st.1 ++ leBytes 4 st.2.1 ++ leBytes 4 st.2.2.1 ++ leBytes 4 st.2.2.2

/-- UTF-8 encoding of a single code point. -/
def utf8CharBytes (c : Nat) : List Nat :=
  if c < 128 then [c]
  else if c < 2048 then [192 + c / 64, 128 + c % 64]
  else if c < 65536 then
    [224 + c / 4096, 128 + (c / 64) % 64, 128 + c % 64]
  else
    [240 + c / 262144, 128 + (c / 4096) % 64, 128 + (c / 64) % 64, 128 + c % 64]

/-- UTF-8 byte sequence of a string, as `crypto.update(sessionId)` hashes it. -/
def utf8Bytes (s : String) : List Nat :=
  (s.data.map (fun c => utf8CharBytes c.toNat)).foldr (· ++ ·) []

/-- `parseInt(hash.substring(0, 8), 16)`: the first four digest bytes read as a
big-endian number (the hex string lists bytes in digest order). -/
def md5Head32be (msg : List Nat) : Nat :=
  let bytes := md5Digest msg
  bytes.getD 0 0 * 16777216 + bytes.getD 1 0 * 65536 +
    bytes.getD 2 0 * 256 + bytes.getD 3 0

/-- Default worker count (`process.env.WORKERS, default 4`). -/
def TOTAL_WORKERS : Nat := 4

/-- `getWorkerIndexForSession(sessionId)`: md5 of the id, first 8 hex digits as
a number, reduced modulo the worker count. -/
def getWorkerIndexForSession (totalWorkers : Nat) (sessionId : String) : Nat :=
  md5Head32be (utf8Bytes sessionId) % totalWorkers

/-! ## Session Ownership Directory and request routing (master process).

From the cluster revision: `sessionOwnership` is a map mutated by
`SESSION_CLAIMED` / `SESSION_RELEASED` worker messages; `forwardToWorker`
resolves the target worker as the claimed owner when present, else the
hash-based index. -/

/-- The `sessionOwnership` map, as an association list keyed by session id. -/
def lookupOwner (ownership : List (String × Nat)) (sid : String) : Option Nat :=
  List.lookup sid ownership

/-- The routing decision of `forwardToWorker`:
`sessionOwnership.get(sessionId) ?? getWorkerIndexForSession(sessionId)`. -/
def resolveWorker (totalWorkers : Nat) (ownership : List (String × Nat))
    (sid : String) : Nat :=
  match lookupOwner ownership sid with
  | some w => w
  | none => getWorkerIndexForSession totalWorkers sid

/-! ## IPC Correlator (master `requestMap`).

`forwardToWorker` stores `{res, timeoutHandle}` under a fresh request id and
arms a 30s timeout that deletes the entry and answers 504 if the response was
not already sent; the worker-message handler answers and deletes the entry
only when it is still present, clearing the timeout.  We model the lifecycle
of one correlation entry; `unknownReply` is a reply carrying a request id not
belonging to this entry. -/

def REQUEST_TIMEOUT_MS : Nat := 30000

inductive CorrEvent
  | timerFires
  | workerReply
  | unknownReply
deriving DecidableEq, Repr

structure CorrState where
  /-- the entry is still in `requestMap` -/
  inMap : Bool
  /-- the 30s timeout has been neither cleared nor fired -/
  timerArmed : Bool
  /-- number of times the pending HTTP response was fulfilled -/
  responses : Nat
  /-- the fulfilment, if any, was the 504 worker-timeout failure -/
  timedOut : Bool
deriving DecidableEq, Repr

/-- State right after `forwardToWorker` registered the entry. -/
def corrInit : CorrState :=
  { inMap := true, timerArmed := true, responses := 0, timedOut := false }

/-- One master-loop callback acting on the correlation entry. -/
def corrStep (s : CorrState) (e : CorrEvent) : CorrState :=
  match e with
  | .timerFires =>
      if s.timerArmed then
        { inMap := false, timerArmed := false,
          responses := if s.responses = 0 then 1 else s.responses,
          timedOut := if s.responses = 0 then true else s.timedOut }
      else s
  | .workerReply =>
      if s.inMap then
        { inMap := false, timerArmed := false,
          responses := s.responses + 1, timedOut := s.timedOut }
      else s
  | .unknownReply => s

def corrRun (tr : List CorrEvent) : CorrState :=
  tr.foldl corrStep corrInit

/-- The terminal state after the timeout won the race. -/
def corrDoneTimeout : CorrState :=
  { inMap := false, timerArmed := false, responses := 1, timedOut := true }

/-- The terminal state after a worker reply won the race. -/
def corrDoneReplied : CorrState :=
  { inMap := false, timerArmed := false, responses := 1, timedOut := false }

/-! ## Connection-close handler (worker `connection.update`, cluster revision).

Branches on the Boom status code: 440 (device conflict) backs off
exponentially from 5s capped at 30s and gives up past 5 attempts; 401
removes the session, releases ownership and notifies the webhook sink;
anything else retries with a 2s-per-attempt linear delay up to 3 attempts,
then removes the session and releases ownership (without notifying). -/

def DEVICE_CONFLICT_BASE_MS : Nat := 5000
def DEVICE_CONFLICT_CAP_MS : Nat := 30000
def DEVICE_CONFLICT_MAX_ATTEMPTS : Nat := 5
def ORDINARY_RETRY_STEP_MS : Nat := 2000
def ORDINARY_MAX_ATTEMPTS : Nat := 3

/-- The externally visible effects of one `connection === "close"` event. -/
structure CloseOutcome where
  /-- `sessions.delete(sessionId)` was called -/
  removed : Bool
  /-- `releaseSession(sessionId)` was called -/
  released : Bool
  /-- webhook event sent by this branch, if any -/
  sinkEvent : Option String
  /-- delay of the scheduled `connectToWhatsApp` retry, if one was scheduled -/
  reconnectDelay : Option Nat
  /-- `sessionInfo.reconnectAttempts` after the handler ran -/
  attemptsAfter : Nat
deriving DecidableEq, Repr

/-- The `connection === "close"` branch of the cluster worker, as a function of
the disconnect status code and the current `reconnectAttempts` counter. -/
def handleConnectionClose (code : Option Nat) (reconnectAttempts : Nat) :
    CloseOutcome :=
  if code = some 440 then
    let backoff :=
      min (DEVICE_CONFLICT_BASE_MS * 2 ^ reconnectAttempts) DEVICE_CONFLICT_CAP_MS
    let attempts := reconnectAttempts + 1
    if DEVICE_CONFLICT_MAX_ATTEMPTS < attempts then
      { removed := true, released := true, sinkEvent := none,
        reconnectDelay := none, attemptsAfter := attempts }
    else
      { removed := false, released := false, sinkEvent := none,
        reconnectDelay := some backoff, attemptsAfter := attempts }
  else if code = some 401 then
    { removed := true, released := true, sinkEvent := some "user_logout",
      reconnectDelay := none, attemptsAfter := reconnectAttempts }
  else if reconnectAttempts < ORDINARY_MAX_ATTEMPTS then
    { removed := false, released := false, sinkEvent := none,
      reconnectDelay := some (ORDINARY_RETRY_STEP_MS * (reconnectAttempts + 1)),
      attemptsAfter := reconnectAttempts + 1 }
  else
    { removed := true, released := true, sinkEvent := none,
      reconnectDelay := none, attemptsAfter := reconnectAttempts }

/-! ## Worker session registry and `start_session` (cluster revision). -/

structure SessionInfo where
  status : String
  qr : Option String
  phone : Option String
  reconnectAttempts : Nat
  connectionStable : Bool
deriving DecidableEq, Repr

/-- The `sessionInfo` literal built by `startWhatsAppSession`. -/
def initialSessionInfo : SessionInfo :=
  { status := "initializing", qr := none, phone := none,
    reconnectAttempts := 0, connectionStable := false }

structure StartResult where
  success : Bool
  status : String
deriving DecidableEq, Repr

/-- Worker-local state: resident sessions, plus the `SESSION_CLAIMED` messages
sent to the master and the `connectToWhatsApp` invocations started (each such
invocation builds one protocol-client handle). -/
structure WorkerState where
  sessions : List (String × SessionInfo)
  claimsSent : List String
  connectsStarted : List String
deriving DecidableEq, Repr

/-- `startWhatsAppSession(sessionId)`: idempotent, non-blocking.  If resident,
return the current status and change nothing; otherwise claim ownership
immediately, insert the session, kick off the (asynchronous) connect, and
return `initializing` without awaiting it. -/
def startWhatsAppSession (sid : String) (w : WorkerState) :
    StartResult × WorkerState :=
  match List.lookup sid w.sessions with
  | some info => ({ success := true, status := info.status }, w)
  | none =>
      ({ success := true, status := "initializing" },
       { sessions := (sid, initialSessionInfo) :: w.sessions,
         claimsSent := sid :: w.claimsSent,
         connectsStarted := sid :: w.connectsStarted })

/-! ## QR pairing-code handling (`server.js` revision).

On the first `qr` payload the handler renders it, sets `qr_ready`, records
`qr_expiry = now + 60000`, notifies the sink and arms a 60s timer whose
callback expires the code if the deadline passed and the session is still not
connected. -/

def QR_VALIDITY_MS : Nat := 60000

structure QrSession where
  qr : Option String
  status : String
  qrExpiry : Nat
  /-- webhook events emitted so far, most recent first -/
  sinkEvents : List String
deriving DecidableEq, Repr

/-- The `if (qr && !sessionInfo.qr)` branch of `connection.update`. -/
def handleQrEvent (now : Nat) (qrImage : String) (s : QrSession) : QrSession :=
  if s.qr.isSome then s
  else
    { qr := some qrImage, status := "qr_ready", qrExpiry := now + QR_VALIDITY_MS,
      sinkEvents := "qr_ready" :: s.sinkEvents }

/-- The 60s `setTimeout` callback armed by the QR branch:
`if (Date.now() > qr_expiry && status !== "connected")`. -/
def qrExpiryTimerFires (now : Nat) (s : QrSession) : QrSession :=
  if s.qrExpiry < now ∧ s.status ≠ "connected" then
    { qr := none, status := "expired", qrExpiry := s.qrExpiry,
      sinkEvents := "disconnected" :: s.sinkEvents }
  else s

/-! ## Debounced credential persistence (`saveAuth`, debounced revision).

`saveAuth(false)` (soft, from `keys.set`) returns immediately when
`saveTimeout` is non-null, else arms a 10s timer; `saveAuth(true)` (force,
from `saveCreds`) clears any armed timer and writes synchronously.  The
`saveTimeout` variable is never reset to null after the timer fires or is
cleared, so a spent handle is still non-null. -/

def SOFT_SAVE_DEBOUNCE_MS : Nat := 10000

/-- The JS `saveTimeout` variable: `null`, an armed timer with its fire
deadline, or a handle of a timer that already fired or was cleared (still
truthy in JS). -/
inductive TimerRef
  | null
  | armed (deadline : Nat)
  | spent
deriving DecidableEq, Repr

structure AuthPersistState (α : Type) where
  /-- the in-memory `sessionCache` -/
  cache : α
  saveTimeout : TimerRef
  /-- durable writes performed, most recent first; each records the cache
  snapshot serialized by `executeSave` -/
  writes : List α
deriving DecidableEq, Repr

/-- `keys.set(data)` followed by `saveAuth(false)` at time `now`: mutate the
cache; skip if a timer handle exists, else arm the debounce timer. -/
def softUpdate {α : Type} (now : Nat) (f : α → α) (s : AuthPersistState α) :
    AuthPersistState α :=
  let s := { s with cache := f s.cache }
  match s.saveTimeout with
  | .null => { s with saveTimeout := .armed (now + SOFT_SAVE_DEBOUNCE_MS) }
  | _ => s

/-- A credential mutation followed by `saveAuth(true)`: clear any armed timer
(`clearTimeout`, which does not null the variable) and run `executeSave`
synchronously. -/
def forceUpdate {α : Type} (f : α → α) (s : AuthPersistState α) :
    AuthPersistState α :=
  let s := { s with cache := f s.cache }
  { cache := s.cache,
    saveTimeout := match s.saveTimeout with | .null => .null | _ => .spent,
    writes := s.cache :: s.writes }

/-- The armed debounce timer fires: `executeSave` serializes the cache as it
is now; the handle variable keeps pointing at the fired timer. -/
def debounceTimerFires {α : Type} (s : AuthPersistState α) :
    AuthPersistState α :=
  match s.saveTimeout with
  | .armed _ =>
      { cache := s.cache, saveTimeout := .spent, writes := s.cache :: s.writes }
  | _ => s

/-- A sequence of timed soft updates, applied left to right. -/
def applySoftUpdates {α : Type} (l : List (Nat × (α → α)))
    (s : AuthPersistState α) : AuthPersistState α :=
  l.foldl (fun s p => softUpdate p.1 p.2 s) s

/-- The cache after applying the same mutations directly. -/
def foldMutations {α : Type} (l : List (Nat × (α → α))) (x : α) : α :=
  l.foldl (fun x p => p.2 x) x

/-! ## Write-failure retry chain (`executeSave`, `src/supabase-auth.js`).

On a failed upsert, `executeSave` logs the error and re-arms
`saveTimeout = setTimeout(executeSave, 3000)`; on success it nulls the
handle.  `outcomes` is the oracle of upsert results in the order the attempts
run: processing stops at the first success. -/

def SAVE_RETRY_DELAY_MS : Nat := 3000

/-- Number of upsert attempts performed given the outcome oracle. -/
def saveAttempts : List Bool → Nat
  | [] => 0
  | ok :: rest => 1 + (if ok then 0 else saveAttempts rest)

/-- Whether, after the observed outcomes, yet another retry is armed. -/
def retryArmedAfter : List Bool → Bool
  | [] => false
  | ok :: rest =>
      if ok then false
      else if rest.isEmpty then true
      else retryArmedAfter rest

/-! ## Startup auto-restore partitioning (worker `autoRestore`). -/

/-- The persisted session ids that worker `w` restores at startup:
`data.filter(s => getWorkerIndexForSession(s.id) === WORKER_INDEX)`. -/
def autoRestoredIds (totalWorkers : Nat) (persisted : List String) (w : Nat) :
    List String :=
  persisted.filter (fun id => getWorkerIndexForSession totalWorkers id == w)

/-! ## Sanity anchors for the MD5 embedding. -/

set_option maxRecDepth 10000

/-- Standard test vector: md5("abc") = 900150983cd24fb0d6963f7d28e17f72. -/
lemma md5Digest_abc :
    md5Digest (utf8Bytes "abc") =
      [144, 1, 80, 152, 60, 210, 79, 176, 214, 150, 63, 125, 40, 225, 127, 114] := by
  decide

/-! ## Claim theorems. -/

/-- C1: `resolve(sessionId)` returns the index of the claimed owner when an
ownership record exists; otherwise it equals the md5-digest-based index, lies
in `[0, workerCount)`, and agrees between any two directory states in which
the id is unclaimed — repeated resolves of a never-claimed id are
deterministic and restart-stable. -/
theorem c1_resolve_owner_or_hash (n : Nat) (hn : 0 < n)
    (own own2 : List (String × Nat)) (sid : String) :
    (∀ w, lookupOwner own sid = some w → resolveWorker n own sid = w) ∧
    (lookupOwner own sid = none →
      resolveWorker n own sid = getWorkerIndexForSession n sid) ∧
    (lookupOwner own sid = none → resolveWorker n own sid < n) ∧
    (lookupOwner own sid = none → lookupOwner own2 sid = none →
      resolveWorker n own sid = resolveWorker n own2 sid) := by
  refine ⟨?_, ?_, ?_, ?_⟩
  · intro w h
    simp [resolveWorker, h]
  · intro h
    simp [resolveWorker, h]
  · intro h
    simp only [resolveWorker, h]
    exact Nat.mod_lt _ hn
  · intro h h2
    simp [resolveWorker, h, h2]

theorem c1_resolve_owner_or_hash_witness :
    resolveWorker 4 [] "session-A" < 4 ∧
    resolveWorker 4 [("session-A", 2)] "session-A" = 2 := by
  exact ⟨(c1_resolve_owner_or_hash 4 (by decide) [] [] "session-A").2.2.1 rfl,
    (c1_resolve_owner_or_hash 4 (by decide) [("session-A", 2)] [] "session-A").1 2 rfl⟩

/-- A settled correlation entry (no longer in the map, timer gone) is left
unchanged by every further event. -/
lemma corrStep_settled (s : CorrState) (e : CorrEvent)
    (hm : s.inMap = false) (ht : s.timerArmed = false) : corrStep s e = s := by
  cases e <;> simp [corrStep, hm, ht]

lemma corrFold_settled (tr : List CorrEvent) (s : CorrState)
    (hm : s.inMap = false) (ht : s.timerArmed = false) :
    tr.foldl corrStep s = s := by
  induction tr with
  | nil => rfl
  | cons e rest ih => rw [List.foldl_cons, corrStep_settled s e hm ht]; exact ih

/-- Reachability: from the freshly registered entry, the only states the
correlation entry can be in are the initial one and the two settled ones. -/
lemma corrFold_cases (tr : List CorrEvent) (s : CorrState)
    (hs : s = corrInit ∨ s = corrDoneTimeout ∨ s = corrDoneReplied) :
    tr.foldl corrStep s = corrInit ∨ tr.foldl corrStep s = corrDoneTimeout ∨
      tr.foldl corrStep s = corrDoneReplied := by
  induction tr generalizing s with
  | nil => simpa using hs
  | cons e rest ih =>
      rw [List.foldl_cons]
      rcases hs with h | h | h <;> subst h <;> cases e <;> exact ih _ (by decide)

/-- Any trace containing an effective terminal event settles the entry. -/
lemma corrFold_effective (tr : List CorrEvent) (s : CorrState)
    (hs : s = corrInit ∨ s = corrDoneTimeout ∨ s = corrDoneReplied)
    (he : CorrEvent.timerFires ∈ tr ∨ CorrEvent.workerReply ∈ tr) :
    tr.foldl corrStep s = corrDoneTimeout ∨
      tr.foldl corrStep s = corrDoneReplied := by
  induction tr generalizing s with
  | nil => simp at he
  | cons e rest ih =>
      rw [List.foldl_cons]
      rcases hs with h | h | h
      · subst h
        cases e with
        | timerFires =>
            have : corrStep corrInit CorrEvent.timerFires = corrDoneTimeout := by decide
            rw [this, corrFold_settled rest _ rfl rfl]
            exact Or.inl rfl
        | workerReply =>
            have : corrStep corrInit CorrEvent.workerReply = corrDoneReplied := by decide
            rw [this, corrFold_settled rest _ rfl rfl]
            exact Or.inr rfl
        | unknownReply =>
            have hstep : corrStep corrInit CorrEvent.unknownReply = corrInit := rfl
            rw [hstep]
            have hrest : CorrEvent.timerFires ∈ rest ∨ CorrEvent.workerReply ∈ rest := by
              rcases he with he | he
              · rcases List.mem_cons.mp he with h | h
                · exact absurd h (by decide)
                · exact Or.inl h
              · rcases List.mem_cons.mp he with h | h
                · exact absurd h (by decide)
                · exact Or.inr h
            exact ih corrInit (Or.inl rfl) hrest
      · subst h
        rw [corrStep_settled _ _ rfl rfl, corrFold_settled rest _ rfl rfl]
        exact Or.inl rfl
      · subst h
        rw [corrStep_settled _ _ rfl rfl, corrFold_settled rest _ rfl rfl]
        exact Or.inr rfl

/-- Without any matching worker reply, the entry is either still pending or
settled by the timeout — never settled by a reply. -/
lemma corrFold_noReply (tr : List CorrEvent) (s : CorrState)
    (hs : s = corrInit ∨ s = corrDoneTimeout)
    (hr : CorrEvent.workerReply ∉ tr) :
    tr.foldl corrStep s = corrInit ∨ tr.foldl corrStep s = corrDoneTimeout := by
  induction tr generalizing s with
  | nil => simpa using hs
  | cons e rest ih =>
      rw [List.foldl_cons]
      have hrr : CorrEvent.workerReply ∉ rest := fun h => hr (List.mem_cons_of_mem e h)
      have hee : e ≠ CorrEvent.workerReply := fun h => hr (h ▸ List.mem_cons_self e rest)
      refine ih _ ?_ hrr
      rcases hs with h | h <;> subst h <;> cases e <;>
        first
          | exact absurd rfl hee
          | decide

/-- C2: for one forwarded IPC request, at most one fulfilment ever happens;
any effective terminal event (timeout firing or a matching worker reply)
yields exactly one fulfilment; if the timeout fires and no reply ever
matches, the caller is answered once with the timeout failure and the
correlation entry is removed; a reply for an entry no longer in the map, or
for an unknown request id, is a no-op. -/
theorem c2_ipc_exactly_once (tr : List CorrEvent) :
    (corrRun tr).responses ≤ 1 ∧
    ((CorrEvent.timerFires ∈ tr ∨ CorrEvent.workerReply ∈ tr) →
      (corrRun tr).responses = 1) ∧
    ((CorrEvent.timerFires ∈ tr ∧ CorrEvent.workerReply ∉ tr) →
      (corrRun tr).inMap = false ∧ (corrRun tr).timedOut = true ∧
        (corrRun tr).responses = 1) ∧
    (∀ s : CorrState, s.inMap = false → corrStep s CorrEvent.workerReply = s) ∧
    (∀ s : CorrState, corrStep s CorrEvent.unknownReply = s) := by
  refine ⟨?_, ?_, ?_, ?_, ?_⟩
  · rcases corrFold_cases tr corrInit (Or.inl rfl) with h | h | h <;>
      rw [corrRun, h] <;> decide
  · intro he
    rcases corrFold_effective tr corrInit (Or.inl rfl) he with h | h <;>
      rw [corrRun, h] <;> decide
  · rintro ⟨ht, hr⟩
    rcases corrFold_noReply tr corrInit (Or.inl rfl) hr with h | h
    · rcases corrFold_effective tr corrInit (Or.inl rfl) (Or.inl ht) with h2 | h2 <;>
        rw [corrRun] <;> rw [h] at h2 <;> exact absurd h2 (by decide)
    · rw [corrRun, h]; exact ⟨rfl, rfl, rfl⟩
  · intro s hm
    simp [corrStep, hm]
  · intro s
    rfl

theorem c2_ipc_exactly_once_witness :
    (corrRun [CorrEvent.unknownReply, CorrEvent.timerFires,
        CorrEvent.workerReply]).responses = 1 := by
  exact (c2_ipc_exactly_once _).2.1 (Or.inl (by decide))

/-- A soft update while the debounce timer is armed only mutates the cache:
the timer is skipped, not re-armed. -/
lemma softUpdate_armed {α : Type} (now : Nat) (f : α → α)
    (s : AuthPersistState α) (d : Nat) (h : s.saveTimeout = .armed d) :
    softUpdate now f s =
      { cache := f s.cache, saveTimeout := .armed d, writes := s.writes } := by
  simp [softUpdate, h]

lemma applySoftUpdates_armed {α : Type} (l : List (Nat × (α → α)))
    (s : AuthPersistState α) (d : Nat) (h : s.saveTimeout = .armed d) :
    applySoftUpdates l s =
      { cache := foldMutations l s.cache, saveTimeout := .armed d,
        writes := s.writes } := by
  induction l generalizing s with
  | nil =>
      simp only [applySoftUpdates, List.foldl_nil, foldMutations]
      rw [← h]
  | cons p rest ih =>
      have hstep : applySoftUpdates (p :: rest) s =
          applySoftUpdates rest (softUpdate p.1 p.2 s) := rfl
      rw [hstep, softUpdate_armed p.1 p.2 s d h, ih _ rfl]
      simp [foldMutations]

/-- C3 counterexample: soft updates at 0ms and 9000ms leave the debounce
deadline at 10000ms — the timer is not re-armed to 19000ms by the second
update; moreover, after the timer fires, the stale non-null handle makes every
later soft update skip arming entirely, so the next batch of soft updates
produces no write at all (the write log stays at exactly one entry). -/
theorem c3_debounce_rearm_counterexample :
    (softUpdate 9000 Nat.succ (softUpdate 0 Nat.succ
        ({ cache := 0, saveTimeout := .null, writes := [] } :
          AuthPersistState Nat))).saveTimeout =
      TimerRef.armed SOFT_SAVE_DEBOUNCE_MS ∧
    TimerRef.armed SOFT_SAVE_DEBOUNCE_MS ≠
      TimerRef.armed (9000 + SOFT_SAVE_DEBOUNCE_MS) ∧
    (softUpdate 20000 Nat.succ (debounceTimerFires (softUpdate 9000 Nat.succ
        (softUpdate 0 Nat.succ
          ({ cache := 0, saveTimeout := .null, writes := [] } :
            AuthPersistState Nat))))).saveTimeout = TimerRef.spent ∧
    (debounceTimerFires (softUpdate 20000 Nat.succ (debounceTimerFires
        (softUpdate 9000 Nat.succ (softUpdate 0 Nat.succ
          ({ cache := 0, saveTimeout := .null, writes := [] } :
            AuthPersistState Nat)))))).writes = [2] := by
  decide

/-- C3 (amended): starting from a state with no timer handle, a batch of soft
updates arms the 10s debounce timer once, on the first update — subsequent
soft updates mutate only the in-memory cache and are skipped rather than
re-armed — and when the timer fires exactly one durable write is performed,
containing the most recent in-memory state; a force update clears any armed
timer and writes synchronously.  (After the timer fires, the handle variable
is never reset, so only a force update can write again.) -/
theorem c3_debounce_single_write {α : Type} (s0 : AuthPersistState α)
    (h0 : s0.saveTimeout = .null) (t1 : Nat) (f1 : α → α)
    (rest : List (Nat × (α → α))) :
    (applySoftUpdates ((t1, f1) :: rest) s0).saveTimeout =
      .armed (t1 + SOFT_SAVE_DEBOUNCE_MS) ∧
    (applySoftUpdates ((t1, f1) :: rest) s0).writes = s0.writes ∧
    (applySoftUpdates ((t1, f1) :: rest) s0).cache =
      foldMutations rest (f1 s0.cache) ∧
    (debounceTimerFires (applySoftUpdates ((t1, f1) :: rest) s0)).writes =
      foldMutations rest (f1 s0.cache) :: s0.writes ∧
    (∀ g : α → α,
      (forceUpdate g (applySoftUpdates ((t1, f1) :: rest) s0)).writes =
        g (foldMutations rest (f1 s0.cache)) :: s0.writes ∧
      (forceUpdate g (applySoftUpdates ((t1, f1) :: rest) s0)).saveTimeout =
        TimerRef.spent) := by
  have h1 : softUpdate t1 f1 s0 =
      { cache := f1 s0.cache,
        saveTimeout := .armed (t1 + SOFT_SAVE_DEBOUNCE_MS),
        writes := s0.writes } := by
    simp [softUpdate, h0]
  have h2 : applySoftUpdates ((t1, f1) :: rest) s0 =
      { cache := foldMutations rest (f1 s0.cache),
        saveTimeout := .armed (t1 + SOFT_SAVE_DEBOUNCE_MS),
        writes := s0.writes } := by
    have hstep : applySoftUpdates ((t1, f1) :: rest) s0 =
        applySoftUpdates rest (softUpdate t1 f1 s0) := rfl
    rw [hstep, h1, applySoftUpdates_armed rest _ _ rfl]
  rw [h2]
  exact ⟨rfl, rfl, rfl, rfl, fun g => ⟨rfl, rfl⟩⟩

theorem c3_debounce_single_write_witness :
    (debounceTimerFires (applySoftUpdates [(0, Nat.succ), (500, Nat.succ)]
        ({ cache := 0, saveTimeout := .null, writes := [] } :
          AuthPersistState Nat))).writes = foldMutations [(500, Nat.succ)] 1 :: [] := by
  exact (c3_debounce_single_write
    ({ cache := 0, saveTimeout := .null, writes := [] } : AuthPersistState Nat)
    rfl 0 Nat.succ [(500, Nat.succ)]).2.2.2.1

/-- C4 counterexample: at attempt count 3 a device-conflict (440) closure
still schedules a reconnect while an ordinary closure has already exhausted
its attempt budget, so the device-conflict attempt limit (5) is not smaller
than the ordinary one (3), contrary to the claim. -/
theorem c4_smaller_bound_counterexample :
    (handleConnectionClose (some 440) 3).reconnectDelay.isSome = true ∧
    (handleConnectionClose (some 500) 3).reconnectDelay.isSome = false ∧
    ¬ DEVICE_CONFLICT_MAX_ATTEMPTS < ORDINARY_MAX_ATTEMPTS := by
  decide

/-- C4 (amended): a device-conflict (440) closure reconnects with exponential
backoff doubling from the 5s base up to the 30s cap, and the total number of
device-conflict reconnect attempts is bounded by 5 — a limit that is larger
than, not smaller than, the 3-attempt limit used for ordinary closures. -/
theorem c4_device_conflict_backoff (a : Nat) :
    (a < DEVICE_CONFLICT_MAX_ATTEMPTS →
      handleConnectionClose (some 440) a =
        { removed := false, released := false, sinkEvent := none,
          reconnectDelay :=
            some (min (DEVICE_CONFLICT_BASE_MS * 2 ^ a) DEVICE_CONFLICT_CAP_MS),
          attemptsAfter := a + 1 }) ∧
    (DEVICE_CONFLICT_MAX_ATTEMPTS ≤ a →
      handleConnectionClose (some 440) a =
        { removed := true, released := true, sinkEvent := none,
          reconnectDelay := none, attemptsAfter := a + 1 }) ∧
    (a + 1 < DEVICE_CONFLICT_MAX_ATTEMPTS →
      DEVICE_CONFLICT_BASE_MS * 2 ^ (a + 1) ≤ DEVICE_CONFLICT_CAP_MS →
      (handleConnectionClose (some 440) (a + 1)).reconnectDelay =
        some (2 * (DEVICE_CONFLICT_BASE_MS * 2 ^ a))) ∧
    ORDINARY_MAX_ATTEMPTS < DEVICE_CONFLICT_MAX_ATTEMPTS := by
  refine ⟨?_, ?_, ?_, by decide⟩
  · intro h
    simp only [DEVICE_CONFLICT_MAX_ATTEMPTS] at h
    interval_cases a <;> decide
  · intro h
    unfold handleConnectionClose
    rw [if_pos rfl, if_pos (by simp only [DEVICE_CONFLICT_MAX_ATTEMPTS] at h ⊢; omega)]
  · intro h hcap
    simp only [DEVICE_CONFLICT_MAX_ATTEMPTS] at h
    simp only [DEVICE_CONFLICT_BASE_MS, DEVICE_CONFLICT_CAP_MS] at hcap
    have ha : a < 4 := by omega
    interval_cases a <;> first | decide | exact absurd hcap (by decide)

theorem c4_device_conflict_backoff_witness :
    handleConnectionClose (some 440) 0 =
      { removed := false, released := false, sinkEvent := none,
        reconnectDelay :=
          some (min (DEVICE_CONFLICT_BASE_MS * 2 ^ 0) DEVICE_CONFLICT_CAP_MS),
        attemptsAfter := 1 } := by
  exact (c4_device_conflict_backoff 0).1 (by decide)

/-- C5 counterexample: when an ordinary closure exhausts the 3-attempt cap the
session is removed and its ownership released, but no event at all is emitted
to the external sink — there is no terminal notification, contrary to the
claim. -/
theorem c5_terminal_notification_counterexample :
    (handleConnectionClose (some 500) 3).removed = true ∧
    (handleConnectionClose (some 500) 3).released = true ∧
    (handleConnectionClose (some 500) 3).sinkEvent = none := by
  decide

/-- C5 (amended): for ordinary (non-440, non-401) closures the reconnect
delay is 2s times the new attempt number and strictly increases with the
attempt count up to the 3-attempt cap; once the cap is exhausted the session
is removed from memory and its ownership released, with no notification
emitted to the external sink. -/
theorem c5_ordinary_backoff (code : Option Nat) (a : Nat)
    (h440 : code ≠ some 440) (h401 : code ≠ some 401) :
    (a < ORDINARY_MAX_ATTEMPTS →
      handleConnectionClose code a =
        { removed := false, released := false, sinkEvent := none,
          reconnectDelay := some (ORDINARY_RETRY_STEP_MS * (a + 1)),
          attemptsAfter := a + 1 }) ∧
    (∀ b, a < b → b < ORDINARY_MAX_ATTEMPTS →
      (handleConnectionClose code a).reconnectDelay.getD 0 <
        (handleConnectionClose code b).reconnectDelay.getD 0) ∧
    (ORDINARY_MAX_ATTEMPTS ≤ a →
      handleConnectionClose code a =
        { removed := true, released := true, sinkEvent := none,
          reconnectDelay := none, attemptsAfter := a }) := by
  refine ⟨?_, ?_, ?_⟩
  · intro h
    unfold handleConnectionClose
    rw [if_neg h440, if_neg h401, if_pos h]
  · intro b hab hb
    have ha : a < ORDINARY_MAX_ATTEMPTS := lt_trans hab hb
    unfold handleConnectionClose
    rw [if_neg h440, if_neg h401, if_pos ha, if_neg h440, if_neg h401, if_pos hb]
    simp only [Option.getD_some, ORDINARY_RETRY_STEP_MS]
    omega
  · intro h
    unfold handleConnectionClose
    rw [if_neg h440, if_neg h401, if_neg (by omega)]

theorem c5_ordinary_backoff_witness :
    handleConnectionClose (some 500) 0 =
      { removed := false, released := false, sinkEvent := none,
        reconnectDelay := some (ORDINARY_RETRY_STEP_MS * (0 + 1)),
        attemptsAfter := 1 } := by
  exact (c5_ordinary_backoff (some 500) 0 (by decide) (by decide)).1 (by decide)

/-- C6: a connection close carrying the unauthorized code 401 is absorbing
from any attempt count: the session is removed from memory, its ownership is
released, the external sink is notified of the logout, and no reconnect is
scheduled. -/
theorem c6_unauthorized_close_absorbing (a : Nat) :
    handleConnectionClose (some 401) a =
      { removed := true, released := true, sinkEvent := some "user_logout",
        reconnectDelay := none, attemptsAfter := a } := by
  rfl

/-- C7: `start_session` is idempotent and non-blocking: on a resident session
it returns the current status without changing anything; on a fresh session it
returns `initializing`, inserts the session, claims ownership immediately (the
stored status is still `initializing`, i.e. before any handshake), and starts
exactly one connect; a second immediate call returns the same `initializing`
status and leaves the state — in particular the set of started
protocol-client connects — unchanged. -/
theorem c7_start_session_idempotent (w : WorkerState) (sid : String) :
    (∀ info, List.lookup sid w.sessions = some info →
      startWhatsAppSession sid w =
        ({ success := true, status := info.status }, w)) ∧
    (List.lookup sid w.sessions = none →
      (startWhatsAppSession sid w).1 =
        { success := true, status := "initializing" } ∧
      List.lookup sid (startWhatsAppSession sid w).2.sessions =
        some initialSessionInfo ∧
      (startWhatsAppSession sid w).2.claimsSent = sid :: w.claimsSent ∧
      (startWhatsAppSession sid w).2.connectsStarted =
        sid :: w.connectsStarted ∧
      (startWhatsAppSession sid ((startWhatsAppSession sid w).2)).1 =
        { success := true, status := "initializing" } ∧
      (startWhatsAppSession sid ((startWhatsAppSession sid w).2)).2 =
        (startWhatsAppSession sid w).2) := by
  constructor
  · intro info h
    simp [startWhatsAppSession, h]
  · intro h
    have hlk : List.lookup sid
        ((sid, initialSessionInfo) :: w.sessions) = some initialSessionInfo := by
      simp [List.lookup]
    refine ⟨by simp [startWhatsAppSession, h], ?_, ?_, ?_, ?_, ?_⟩ <;>
      simp [startWhatsAppSession, h, hlk, initialSessionInfo]

theorem c7_start_session_idempotent_witness :
    (startWhatsAppSession "A"
        ({ sessions := [], claimsSent := [], connectsStarted := [] } :
          WorkerState)).1 = { success := true, status := "initializing" } ∧
    (startWhatsAppSession "A" ((startWhatsAppSession "A"
        ({ sessions := [], claimsSent := [], connectsStarted := [] } :
          WorkerState)).2)).2 =
      (startWhatsAppSession "A"
        ({ sessions := [], claimsSent := [], connectsStarted := [] } :
          WorkerState)).2 := by
  refine ⟨((c7_start_session_idempotent
      ({ sessions := [], claimsSent := [], connectsStarted := [] } :
        WorkerState) "A").2 rfl).1,
    ((c7_start_session_idempotent
      ({ sessions := [], claimsSent := [], connectsStarted := [] } :
        WorkerState) "A").2 rfl).2.2.2.2.2⟩

/-- C8 counterexample: after the initial failed write and one failed retry,
`executeSave` arms yet another retry instead of stopping, and three straight
failures mean three attempts were performed — the write is not retried
exactly once. -/
theorem c8_retry_once_counterexample :
    retryArmedAfter [false, false] = true ∧
    saveAttempts [false, false, false] = 3 := by
  decide

/-- C8 (amended): each failed durable write arms another retry after the
fixed 3s delay, indefinitely while failures persist (`n` straight failures
mean `n` attempts with a further retry still armed); a successful attempt
stops the chain with no retry armed.  Failures are only logged, so the
worker does not crash. -/
theorem c8_unbounded_retry (n : Nat) :
    saveAttempts (List.replicate n false) = n ∧
    (0 < n → retryArmedAfter (List.replicate n false) = true) ∧
    saveAttempts (List.replicate n false ++ [true]) = n + 1 ∧
    retryArmedAfter (List.replicate n false ++ [true]) = false := by
  induction n with
  | zero => exact ⟨rfl, by omega, rfl, rfl⟩
  | succ k ih =>
      refine ⟨?_, ?_, ?_, ?_⟩
      · rw [List.replicate_succ, saveAttempts, ih.1]
        simp [Nat.add_comm]
      · intro _
        rw [List.replicate_succ, retryArmedAfter]
        cases k with
        | zero => rfl
        | succ m =>
            have hne : (List.replicate (m + 1) false).isEmpty = false := by
              simp [List.replicate_succ]
            rw [hne]
            simpa using ih.2.1 (Nat.succ_pos m)
      · rw [List.replicate_succ, List.cons_append, saveAttempts, ih.2.2.1]
        simp [Nat.add_comm]
      · rw [List.replicate_succ, List.cons_append, retryArmedAfter]
        have hne : (List.replicate k false ++ [true]).isEmpty = false := by
          cases k <;> simp [List.replicate_succ]
        rw [hne]
        simpa using ih.2.2.2

theorem c8_unbounded_retry_witness :
    retryArmedAfter (List.replicate 2 false) = true := by
  exact (c8_unbounded_retry 2).2.1 (by decide)

/-- C9: on the first pairing-code event the session stores the rendered code,
becomes `qr_ready`, records the fixed 60s expiry deadline and notifies the
sink; when the armed timer fires past that deadline while the session is
still not connected, the status becomes `expired`, the stored code is
cleared, and the external sink is notified. -/
theorem c9_qr_expiry (t0 tf : Nat) (img : String) (s s2 : QrSession)
    (hqr : s.qr = none)
    (hexp : s2.qrExpiry = t0 + QR_VALIDITY_MS)
    (hst : s2.status ≠ "connected")
    (htf : t0 + QR_VALIDITY_MS < tf) :
    (handleQrEvent t0 img s).qr = some img ∧
    (handleQrEvent t0 img s).status = "qr_ready" ∧
    (handleQrEvent t0 img s).qrExpiry = t0 + QR_VALIDITY_MS ∧
    (handleQrEvent t0 img s).sinkEvents = "qr_ready" :: s.sinkEvents ∧
    (qrExpiryTimerFires tf s2).status = "expired" ∧
    (qrExpiryTimerFires tf s2).qr = none ∧
    (qrExpiryTimerFires tf s2).sinkEvents = "disconnected" :: s2.sinkEvents := by
  have hq : (handleQrEvent t0 img s) =
      { qr := some img, status := "qr_ready", qrExpiry := t0 + QR_VALIDITY_MS,
        sinkEvents := "qr_ready" :: s.sinkEvents } := by
    simp [handleQrEvent, hqr]
  have hcond : s2.qrExpiry < tf ∧ s2.status ≠ "connected" := by
    exact ⟨hexp ▸ htf, hst⟩
  have hf : qrExpiryTimerFires tf s2 =
      { qr := none, status := "expired", qrExpiry := s2.qrExpiry,
        sinkEvents := "disconnected" :: s2.sinkEvents } := by
    simp [qrExpiryTimerFires, hcond.1, hcond.2]
  rw [hq, hf]
  exact ⟨rfl, rfl, rfl, rfl, rfl, rfl, rfl⟩

theorem c9_qr_expiry_witness :
    (qrExpiryTimerFires 60001
      ({ qr := some "QR", status := "qr_ready", qrExpiry := 60000,
         sinkEvents := ["qr_ready"] } : QrSession)).status = "expired" := by
  exact (c9_qr_expiry 0 60001 "QR"
    ({ qr := none, status := "initializing", qrExpiry := 0, sinkEvents := [] })
    ({ qr := some "QR", status := "qr_ready", qrExpiry := 60000,
       sinkEvents := ["qr_ready"] })
    rfl rfl (by decide) (by decide)).2.2.2.2.1

/-- C10: at startup each worker restores exactly the persisted sessions whose
md5-based index equals its own partition index, so every persisted id is
restored by exactly one worker with index below the pool size, and the
restore sets of two distinct workers are disjoint. -/
theorem c10_auto_restore_partition (n : Nat) (hn : 0 < n)
    (persisted : List String) :
    (∀ id ∈ persisted, ∃ w, w < n ∧ id ∈ autoRestoredIds n persisted w ∧
      ∀ w2, id ∈ autoRestoredIds n persisted w2 → w2 = w) ∧
    (∀ w1 w2, w1 ≠ w2 → ∀ id, id ∈ autoRestoredIds n persisted w1 →
      id ∉ autoRestoredIds n persisted w2) := by
  constructor
  · intro id hid
    refine ⟨getWorkerIndexForSession n id, Nat.mod_lt _ hn, ?_, ?_⟩
    · simp [autoRestoredIds, List.mem_filter, hid]
    · intro w2 h2
      have h : getWorkerIndexForSession n id = w2 := by
        simpa using (List.mem_filter.mp h2).2
      exact h.symm
  · intro w1 w2 hne id h1 h2
    have e1 : getWorkerIndexForSession n id = w1 := by
      simpa using (List.mem_filter.mp h1).2
    have e2 : getWorkerIndexForSession n id = w2 := by
      simpa using (List.mem_filter.mp h2).2
    exact hne (e1.symm.trans e2)

theorem c10_auto_restore_partition_witness :
    ∃ w, w < 4 ∧ "session-B" ∈ autoRestoredIds 4 ["session-B"] w ∧
      ∀ w2, "session-B" ∈ autoRestoredIds 4 ["session-B"] w2 → w2 = w := by
  exact (c10_auto_restore_partition 4 (by decide) ["session-B"]).1
    "session-B" (by simp)

end WhatsAppGateway
